import Mathlib

/-!
Shallow embedding of src/src/pkcs11/mechanism.c (OpenSC PKCS#11 mechanism
dispatch layer).  Pointers to descriptors become values, the per-card
mechanism array becomes a list in insertion order, machine words (CK_RV,
CK_ULONG, flag bitsets) become Nat, and the results of external hooks
(key->ops callbacks, nested digest operations, the session manager) are
passed in as explicit arguments.  Allocation is modelled as always
succeeding; the CKR_HOST_MEMORY paths guarded by allocation failure are
therefore not reachable in this model and no settled claim depends on them.
-/

namespace Mechanism

/-- CK_RV return codes are plain machine words (CK_ULONG in the standard). -/
abbrev CK_RV := Nat

/-- Protocol-defined return values from the external Cryptoki standard
(the pkcs11 header is not part of src/; values are protocol constants). -/
def CKR_OK : CK_RV := 0x00

def CKR_HOST_MEMORY : CK_RV := 0x02

def CKR_FUNCTION_FAILED : CK_RV := 0x06

def CKR_ARGUMENTS_BAD : CK_RV := 0x07

def CKR_FUNCTION_NOT_SUPPORTED : CK_RV := 0x54

def CKR_KEY_TYPE_INCONSISTENT : CK_RV := 0x63

def CKR_MECHANISM_INVALID : CK_RV := 0x70

/-- Modelled from the spec: getOperation on a session with no installed
handle of the requested kind answers OperationNotInitialized (the session
layer is outside src/).  The numeric value is the protocol constant
CKR_OPERATION_NOT_INITIALIZED. -/
def CKR_OPERATION_NOT_ACTIVE : CK_RV := 0x91

def CKR_TOKEN_NOT_PRESENT : CK_RV := 0xE0

def CKR_BUFFER_TOO_SMALL : CK_RV := 0x150

/-- Capability flag bits of CK_MECHANISM_INFO.flags (protocol constants). -/
def CKF_ENCRYPT : Nat := 0x100

def CKF_DECRYPT : Nat := 0x200

def CKF_DIGEST : Nat := 0x400

def CKF_SIGN : Nat := 0x800

def CKF_SIGN_RECOVER : Nat := 0x1000

def CKF_VERIFY : Nat := 0x2000

def CKF_VERIFY_RECOVER : Nat := 0x4000

def CKF_WRAP : Nat := 0x20000

def CKF_UNWRAP : Nat := 0x40000

def CKF_DERIVE : Nat := 0x80000

/-- CK_KEY_TYPE constants used by sc_pkcs11_signature_size (protocol values). -/
def CKK_RSA : Nat := 0x0

def CKK_EC : Nat := 0x3

def CKK_GOSTR3410 : Nat := 0x30

def CKK_EC_EDWARDS : Nat := 0x40

def CKK_EC_MONTGOMERY : Nat := 0x41

/-- CK_MECHANISM_INFO: key size range in bits plus the capability flag set. -/
structure MechInfo where
  ulMinKeySize : Nat
  ulMaxKeySize : Nat
  flags : Nat
  deriving DecidableEq

/-- sc_pkcs11_mechanism_type_t.  The C struct carries a fixed array
int key_types[MAX_KEY_TYPES] terminated by a negative sentinel; it is
modelled as a list of that fixed length.  The mech_data payload and the
function-pointer table are not part of the registry record here: the hook
results are supplied to the dispatch functions as explicit arguments, and
the hash-signature payload is carried by value where the composition needs
it (HashSigInfo below). -/
structure MechType where
  mech : Nat
  mech_info : MechInfo
  key_types : List Int
  deriving DecidableEq

/-- Loop condition of sc_pkcs11_find_mechanism (mechanism.c line 203):
identifier matches and the descriptor flags are a superset of the
required flags. -/
def mechMatches (mt : MechType) (mech : Nat) (flags : Nat) : Bool :=
  mt.mech == mech && (mt.mech_info.flags &&& flags) == flags

/-- sc_pkcs11_find_mechanism: first descriptor (insertion order) whose id
matches and whose flags include all required flags. -/
def sc_pkcs11_find_mechanism : List MechType → Nat → Nat → Option MechType
  | [], _, _ => none
  | mt :: rest, mech, flags =>
    if mechMatches mt mech flags then some mt
    else sc_pkcs11_find_mechanism rest mech flags

/-- The helper _update_mech_info: widen the key-size range and or-in the
new flags. -/
def _update_mech_info (mi newInfo : MechInfo) : MechInfo :=
  let mi := if newInfo.ulMaxKeySize > mi.ulMaxKeySize then
      { mi with ulMaxKeySize := newInfo.ulMaxKeySize } else mi
  let mi := if newInfo.ulMinKeySize < mi.ulMinKeySize then
      { mi with ulMinKeySize := newInfo.ulMinKeySize } else mi
  { mi with flags := mi.flags ||| newInfo.flags }

/-- The statement existing_mt.key_types[i + 1] = -1 guarded by
i + 1 < MAX_KEY_TYPES in sc_pkcs11_register_mechanism: writing the
sentinel into the slot after the one just filled, when it exists. -/
def setNextSentinel : List Int → List Int
  | [] => []
  | _ :: t => (-1) :: t

/-- The slot loop of sc_pkcs11_register_mechanism (lines 137-157) over the
key_types array of the already-registered descriptor: stop at the first
slot equal to the new key type (already registered, array unchanged), else
at the first negative slot (free: store the new key type there and write
the sentinel into the following slot); running off the end is the capacity
failure, reported as none. -/
def addKeyType : List Int → Int → Option (List Int)
  | [], _ => none
  | k :: rest, newkt =>
    if k == newkt then some (k :: rest)
    else if k < 0 then some (newkt :: setNextSentinel rest)
    else match addKeyType rest newkt with
      | some l => some (k :: l)
      | none => none

/-- sc_pkcs11_register_mechanism.  The C code first runs
sc_pkcs11_find_mechanism(card, mt->mech, mt->mech_info.flags) and updates
the found descriptor in place; here the recursion locates the first
descriptor satisfying the same mechMatches condition.  When no descriptor
matches, the C code reallocs the array and appends a deep copy of mt
(sc_pkcs11_copy_mechanism); the copy is modelled as the value itself.
Allocation and clone failures (CKR_HOST_MEMORY paths) are not modelled. -/
def sc_pkcs11_register_mechanism : List MechType → MechType → CK_RV × List MechType
  | [], mt => (CKR_OK, [mt])
  | ex :: rest, mt =>
    if mechMatches ex mt.mech mt.mech_info.flags then
      match addKeyType ex.key_types (mt.key_types.headD (-1)) with
      | some kts =>
        (CKR_OK,
          { ex with
            mech_info := _update_mech_info ex.mech_info mt.mech_info
            key_types := kts } :: rest)
      | none => (CKR_BUFFER_TOO_SMALL, ex :: rest)
    else
      let r := sc_pkcs11_register_mechanism rest mt
      (r.1, ex :: r.2)

/-- Slot scan of _validate_key_type over the key_types array: stop at the
first negative sentinel; CKR_OK when the declared key type occurs first. -/
def validateKeyTypeScan : List Int → Nat → CK_RV
  | [], _ => CKR_KEY_TYPE_INCONSISTENT
  | k :: rest, key_type =>
    if k < 0 then CKR_KEY_TYPE_INCONSISTENT
    else if k.toNat == key_type then CKR_OK
    else validateKeyTypeScan rest key_type

/-- The helper _validate_key_type: linear scan of the descriptor's
key_types slots up to the first negative sentinel; the comparison casts
the non-negative int slot to CK_KEY_TYPE. -/
def _validate_key_type (mech : MechType) (key_type : Nat) : CK_RV :=
  validateKeyTypeScan mech.key_types key_type

/-- sc_pkcs11_get_mechanism_info: lookup with empty required-flags set;
on success the stored CK_MECHANISM_INFO is copied out, otherwise
CKR_MECHANISM_INVALID. -/
def sc_pkcs11_get_mechanism_info (mechs : List MechType) (mech : Nat) :
    CK_RV × Option MechInfo :=
  match sc_pkcs11_find_mechanism mechs mech 0 with
  | none => (CKR_MECHANISM_INVALID, none)
  | some mt => (CKR_OK, some mt.mech_info)

/-- struct hash_signature_info: the composition payload carried as
mech_data by a sign-with-hash descriptor.  hash_type is the registry's
digest descriptor, carried here by value. -/
structure HashSigInfo where
  mech : Nat
  hash_mech : Nat
  sign_mech : Nat
  hash_type : MechType
  deriving DecidableEq

/-- struct operation_data: private payload of a sign/verify operation.
The key object is reduced to an identifier; md records the descriptor the
nested digest operation was created over (none when no digest operation
exists); buffer/buffer_len is the secure accumulation buffer, as a byte
list. -/
structure OperationData where
  key : Nat
  info : Option HashSigInfo
  md : Option MechType
  buffer : List Nat
  deriving DecidableEq

/-- signature_data_buffer_append.  A null data pointer is CKR_ARGUMENTS_BAD;
an empty chunk returns CKR_OK before any allocation, leaving the buffer
untouched; otherwise a fresh secure buffer holding old-contents ++ chunk
replaces the old one (the CKR_HOST_MEMORY branch on allocation failure is
not modelled). -/
def signature_data_buffer_append (data : Option OperationData) (inb : List Nat) :
    CK_RV × Option OperationData :=
  match data with
  | none => (CKR_ARGUMENTS_BAD, none)
  | some d =>
    if inb.length == 0 then (CKR_OK, some d)
    else (CKR_OK, some { d with buffer := d.buffer ++ inb })

/-- Tail of sc_pkcs11_signature_init after can_do has been evaluated into
can_do_it (lines 524-555): run the key's init_params hook when present,
then instantiate and initialize the nested digest operation exactly when
the descriptor carries composition info and the card could not do the
composite mechanism natively.  The second component is the priv_data left
on the operation, none when the data was released on a failure path. -/
def signatureInitHash (key : Nat) (can_do_it : Bool) (info : Option HashSigInfo)
    (mdInitRv : CK_RV) : CK_RV × Option OperationData :=
  match info with
  | some i =>
    if !can_do_it then
      if mdInitRv != CKR_OK then (mdInitRv, none)
      else (CKR_OK, some { key := key, info := some i, md := some i.hash_type, buffer := [] })
    else (CKR_OK, some { key := key, info := none, md := none, buffer := [] })
  | none => (CKR_OK, some { key := key, info := none, md := none, buffer := [] })

/-- Parameter-validation step of sc_pkcs11_signature_init: init_params
(when the key has the hook) must answer CKR_OK, else the operation data is
released and the error propagated. -/
def signatureInitParams (key : Nat) (can_do_it : Bool) (initParams : Option CK_RV)
    (info : Option HashSigInfo) (mdInitRv : CK_RV) : CK_RV × Option OperationData :=
  match initParams with
  | some rv =>
    if rv != CKR_OK then (rv, none)
    else signatureInitHash key can_do_it info mdInitRv
  | none => signatureInitHash key can_do_it info mdInitRv

/-- sc_pkcs11_signature_init.  canDo is none when the key has no can_do
hook, some rv for the result of can_do(session, key, mech, CKF_SIGN);
initParams likewise for init_params; info is the descriptor's mech_data;
mdInitRv the result of the nested digest md_init when it is reached.
CKR_OK from can_do selects the native path (no digest operation),
CKR_FUNCTION_NOT_SUPPORTED the software-hash fallback, anything else
releases the operation data and fails the init. -/
def sc_pkcs11_signature_init (key : Nat) (canDo : Option CK_RV)
    (initParams : Option CK_RV) (info : Option HashSigInfo) (mdInitRv : CK_RV) :
    CK_RV × Option OperationData :=
  match canDo with
  | some rv =>
    if rv == CKR_OK then signatureInitParams key true initParams info mdInitRv
    else if rv == CKR_FUNCTION_NOT_SUPPORTED then
      signatureInitParams key false initParams info mdInitRv
    else (rv, none)
  | none => signatureInitParams key false initParams info mdInitRv

/-- sc_pkcs11_signature_update: with a nested digest operation the data
part goes to md_update (result supplied as mdUpdateRv, the digest state
itself being opaque to this layer); otherwise the raw bytes are appended
to the accumulation buffer. -/
def sc_pkcs11_signature_update (data : OperationData) (part : List Nat)
    (mdUpdateRv : CK_RV) : CK_RV × OperationData :=
  match data.md with
  | some _ => (mdUpdateRv, data)
  | none =>
    let r := signature_data_buffer_append (some data) part
    (r.1, r.2.getD data)

/-- sc_pkcs11_signature_size: fetch CKA_KEY_TYPE, then branch on the
declared key type, re-deriving the length from CKA_MODULUS_BITS:
ceil(bits/8) for RSA, doubled for the three EC families and for
GOSTR3410, CKR_MECHANISM_INVALID for every other key type.  keyTypeRv and
modBitsRv are the get_attribute results, keyType and modBits the fetched
values. -/
def sc_pkcs11_signature_size (keyTypeRv : CK_RV) (keyType : Nat)
    (modBitsRv : CK_RV) (modBits : Nat) : CK_RV × Option Nat :=
  if keyTypeRv != CKR_OK then (keyTypeRv, none)
  else if keyType == CKK_RSA then
    if modBitsRv == CKR_OK then (CKR_OK, some ((modBits + 7) / 8)) else (modBitsRv, none)
  else if keyType == CKK_EC || keyType == CKK_EC_EDWARDS || keyType == CKK_EC_MONTGOMERY then
    if modBitsRv == CKR_OK then (CKR_OK, some ((modBits + 7) / 8 * 2)) else (modBitsRv, none)
  else if keyType == CKK_GOSTR3410 then
    if modBitsRv == CKR_OK then (CKR_OK, some ((modBits + 7) / 8 * 2)) else (modBitsRv, none)
  else (CKR_MECHANISM_INVALID, none)

/-!
Family dispatchers.  Each returns the CK_RV surfaced to the caller
together with a Bool saying whether a handle of the family is installed in
the session when the call returns (session_start_operation is assumed to
succeed; its failure surfaces the session manager's error with nothing
installed and is not the subject of any claim).  Hook results are explicit
arguments.
-/

/-- sc_pkcs11_sign_init dispatch (lines 365-409): resolve with CKF_SIGN,
validate the key type, reject an oversize non-null parameter with
CKR_ARGUMENTS_BAD before installing anything, install the handle, run the
descriptor's sign_init hook and uninstall on its failure.  paramsCap
models sizeof(operation->mechanism_params). -/
def sc_pkcs11_sign_init (mechs : List MechType) (mech keyType : Nat)
    (paramNonNull : Bool) (paramLen paramsCap : Nat) (signInitRv : CK_RV) :
    CK_RV × Bool :=
  match sc_pkcs11_find_mechanism mechs mech CKF_SIGN with
  | none => (CKR_MECHANISM_INVALID, false)
  | some mt =>
    let rv := _validate_key_type mt keyType
    if rv != CKR_OK then (rv, false)
    else if paramNonNull && decide (paramLen > paramsCap) then (CKR_ARGUMENTS_BAD, false)
    else if signInitRv != CKR_OK then (signInitRv, false)
    else (CKR_OK, true)

/-- sc_pkcs11_verif_init dispatch (lines 666-707): resolve with
CKF_VERIFY and validate the key type; the caller parameter is copied with
no length check against the fixed-size mechanism_params field (the
paramNonNull/paramLen/paramsCap arguments are accepted for comparison with
sign_init but the source performs no bound check here); uninstall on hook
failure. -/
def sc_pkcs11_verif_init (mechs : List MechType) (mech keyType : Nat)
    (paramNonNull : Bool) (paramLen paramsCap : Nat) (verifInitRv : CK_RV) :
    CK_RV × Bool :=
  match sc_pkcs11_find_mechanism mechs mech CKF_VERIFY with
  | none => (CKR_MECHANISM_INVALID, false)
  | some mt =>
    let rv := _validate_key_type mt keyType
    if rv != CKR_OK then (rv, false)
    else if verifInitRv != CKR_OK then (verifInitRv, false)
    else (CKR_OK, true)

/-- sc_pkcs11_encr_init dispatch (lines 899-947): resolve with
CKF_ENCRYPT, validate the key type, copy the parameter with no length
check, install, run encrypt_init then init_params; both failure paths go
through the out label which uninstalls the handle. -/
def sc_pkcs11_encr_init (mechs : List MechType) (mech keyType : Nat)
    (paramNonNull : Bool) (paramLen paramsCap : Nat) (encryptInitRv : CK_RV)
    (initParams : Option CK_RV) : CK_RV × Bool :=
  match sc_pkcs11_find_mechanism mechs mech CKF_ENCRYPT with
  | none => (CKR_MECHANISM_INVALID, false)
  | some mt =>
    let rv := _validate_key_type mt keyType
    if rv != CKR_OK then (rv, false)
    else if encryptInitRv != CKR_OK then (encryptInitRv, false)
    else
      match initParams with
      | some rv2 => if rv2 != CKR_OK then (rv2, false) else (CKR_OK, true)
      | none => (CKR_OK, true)

/-- sc_pkcs11_decr_init dispatch (lines 1026-1076): resolve with
CKF_DECRYPT, validate the key type, copy the parameter with no length
check, install, run decrypt_init, then init_params when the key has the
hook.  A failing init_params returns directly, skipping
session_stop_operation, so the handle stays installed; a succeeding
init_params overwrites rv, so a failed decrypt_init is forgotten and the
call reports CKR_OK with the handle installed. -/
def sc_pkcs11_decr_init (mechs : List MechType) (mech keyType : Nat)
    (paramNonNull : Bool) (paramLen paramsCap : Nat) (decryptInitRv : CK_RV)
    (initParams : Option CK_RV) : CK_RV × Bool :=
  match sc_pkcs11_find_mechanism mechs mech CKF_DECRYPT with
  | none => (CKR_MECHANISM_INVALID, false)
  | some mt =>
    let rv := _validate_key_type mt keyType
    if rv != CKR_OK then (rv, false)
    else
      match initParams with
      | some rv2 =>
        if rv2 != CKR_OK then (rv2, true)
        else (CKR_OK, true)
      | none =>
        if decryptInitRv != CKR_OK then (decryptInitRv, false)
        else (CKR_OK, true)

/-- sc_pkcs11_sign_final dispatch (lines 437-462): with a handle
installed, an unset sign_final hook yields CKR_KEY_TYPE_INCONSISTENT,
else the hook result; session_stop_operation runs unless the result is
CKR_BUFFER_TOO_SMALL or the output buffer is null. -/
def sc_pkcs11_sign_final (installed hookPresent : Bool) (hookRv : CK_RV)
    (outNonNull : Bool) : CK_RV × Bool :=
  if !installed then (CKR_OPERATION_NOT_ACTIVE, false)
  else
    let rv := if hookPresent then hookRv else CKR_KEY_TYPE_INCONSISTENT
    if rv != CKR_BUFFER_TOO_SMALL && outNonNull then (rv, false)
    else (rv, true)

/-- sc_pkcs11_md_final dispatch (lines 338-359): with a handle installed
(a null output buffer first zeroes the in-out length, affecting only the
hook, whose result is hookRv), CKR_BUFFER_TOO_SMALL keeps the handle and
is reported as CKR_OK for the null-buffer size query; every other hook
result uninstalls the handle. -/
def sc_pkcs11_md_final (installed : Bool) (hookRv : CK_RV) (outNonNull : Bool) :
    CK_RV × Bool :=
  if !installed then (CKR_OPERATION_NOT_ACTIVE, false)
  else if hookRv == CKR_BUFFER_TOO_SMALL then
    (if outNonNull then CKR_BUFFER_TOO_SMALL else CKR_OK, true)
  else (hookRv, false)

/-- sc_pkcs11_encr one-shot dispatch (lines 949-974): the handle survives
exactly a null-buffer call whose hook answered CKR_OK or a non-null-buffer
call whose hook answered CKR_BUFFER_TOO_SMALL; every other case runs
session_stop_operation. -/
def sc_pkcs11_encr (installed : Bool) (hookRv : CK_RV) (outNonNull : Bool) :
    CK_RV × Bool :=
  if !installed then (CKR_OPERATION_NOT_ACTIVE, false)
  else if !outNonNull && hookRv == CKR_OK then (CKR_OK, true)
  else if outNonNull && hookRv == CKR_BUFFER_TOO_SMALL then (CKR_BUFFER_TOO_SMALL, true)
  else (hookRv, false)

/-- sc_pkcs11_encr_final dispatch (lines 997-1020): same termination
structure as the encrypt one-shot. -/
def sc_pkcs11_encr_final (installed : Bool) (hookRv : CK_RV) (outNonNull : Bool) :
    CK_RV × Bool :=
  if !installed then (CKR_OPERATION_NOT_ACTIVE, false)
  else if !outNonNull && hookRv == CKR_OK then (CKR_OK, true)
  else if outNonNull && hookRv == CKR_BUFFER_TOO_SMALL then (CKR_BUFFER_TOO_SMALL, true)
  else (hookRv, false)

/-- sc_pkcs11_decr one-shot dispatch (lines 1078-1097): the handle is
uninstalled iff the hook result differs from CKR_BUFFER_TOO_SMALL and the
output buffer is non-null (same structure as sign_final). -/
def sc_pkcs11_decr (installed : Bool) (hookRv : CK_RV) (outNonNull : Bool) :
    CK_RV × Bool :=
  if !installed then (CKR_OPERATION_NOT_ACTIVE, false)
  else if hookRv != CKR_BUFFER_TOO_SMALL && outNonNull then (hookRv, false)
  else (hookRv, true)

/-- sc_pkcs11_decr_final dispatch (lines 1120-1143): same termination
structure as the encrypt final. -/
def sc_pkcs11_decr_final (installed : Bool) (hookRv : CK_RV) (outNonNull : Bool) :
    CK_RV × Bool :=
  if !installed then (CKR_OPERATION_NOT_ACTIVE, false)
  else if !outNonNull && hookRv == CKR_OK then (CKR_OK, true)
  else if outNonNull && hookRv == CKR_BUFFER_TOO_SMALL then (CKR_BUFFER_TOO_SMALL, true)
  else (hookRv, false)

/-- sc_pkcs11_wrap dispatch (lines 1145-1185): the source resolves the
descriptor with sc_pkcs11_find_mechanism(card, mech, CKF_UNWRAP) -- the
UNWRAP flag, not CKF_WRAP -- then validates the key type, runs the wrap
hook and always uninstalls the handle. -/
def sc_pkcs11_wrap (mechs : List MechType) (mech keyType : Nat) (wrapRv : CK_RV) :
    CK_RV × Bool :=
  match sc_pkcs11_find_mechanism mechs mech CKF_UNWRAP with
  | none => (CKR_MECHANISM_INVALID, false)
  | some mt =>
    let rv := _validate_key_type mt keyType
    if rv != CKR_OK then (rv, false)
    else (wrapRv, false)

/-- sc_pkcs11_unwrap dispatch (lines 1190-1239): resolves with
CKF_UNWRAP, validates the key type, runs the unwrap hook and always
uninstalls the handle. -/
def sc_pkcs11_unwrap (mechs : List MechType) (mech keyType : Nat) (unwrapRv : CK_RV) :
    CK_RV × Bool :=
  match sc_pkcs11_find_mechanism mechs mech CKF_UNWRAP with
  | none => (CKR_MECHANISM_INVALID, false)
  | some mt =>
    let rv := _validate_key_type mt keyType
    if rv != CKR_OK then (rv, false)
    else (unwrapRv, false)

/-!
Concrete fixtures used by closed statements.  key_types lists have the
fixed length MAX_KEY_TYPES = 4 of the source array.
-/

/-- A digest descriptor standing for the registry's hash mechanism. -/
def hashDesc : MechType :=
  { mech := 0x220
    mech_info := { ulMinKeySize := 0, ulMaxKeySize := 0, flags := CKF_DIGEST }
    key_types := [-1, -1, -1, -1] }

/-- A hash-signature composition payload over hashDesc. -/
def infoEx : HashSigInfo :=
  { mech := 0x6, hash_mech := 0x250, sign_mech := 0x1, hash_type := hashDesc }

/-- A descriptor carrying all four asymmetric operation families, key
type 0 registered. -/
def dAll : MechType :=
  { mech := 5
    mech_info :=
      { ulMinKeySize := 512, ulMaxKeySize := 4096
        flags := CKF_SIGN ||| CKF_VERIFY ||| CKF_ENCRYPT ||| CKF_DECRYPT }
    key_types := [0, -1, -1, -1] }

/-- A descriptor whose only capability flag is CKF_WRAP. -/
def dWrapOnly : MechType :=
  { mech := 7
    mech_info := { ulMinKeySize := 128, ulMaxKeySize := 256, flags := CKF_WRAP }
    key_types := [0, -1, -1, -1] }

/-- A descriptor whose only capability flag is CKF_UNWRAP. -/
def dUnwrapOnly : MechType :=
  { mech := 7
    mech_info := { ulMinKeySize := 128, ulMaxKeySize := 256, flags := CKF_UNWRAP }
    key_types := [0, -1, -1, -1] }

/-- First registration of id 1, sign capability, key type 0. -/
def c2First : MechType :=
  { mech := 1
    mech_info := { ulMinKeySize := 512, ulMaxKeySize := 2048, flags := CKF_SIGN }
    key_types := [0, -1, -1, -1] }

/-- Second registration of the same id 1 with a flag the first did not
carry. -/
def c2Second : MechType :=
  { mech := 1
    mech_info := { ulMinKeySize := 512, ulMaxKeySize := 2048, flags := CKF_ENCRYPT }
    key_types := [0, -1, -1, -1] }

/-- A descriptor for id 2 with every key-type slot occupied. -/
def c7Full : MechType :=
  { mech := 2
    mech_info := { ulMinKeySize := 512, ulMaxKeySize := 2048, flags := CKF_SIGN }
    key_types := [0, 1, 2, 3] }

/-- A registration for id 2 with a fresh key type and a flag set not
included in c7Full's flags. -/
def c7NewKeyType : MechType :=
  { mech := 2
    mech_info := { ulMinKeySize := 512, ulMaxKeySize := 2048, flags := CKF_ENCRYPT }
    key_types := [7, -1, -1, -1] }

/-- A registration for id 2 with a fresh key type and the same flag set
as c7Full. -/
def c7NewSameFlags : MechType :=
  { mech := 2
    mech_info := { ulMinKeySize := 512, ulMaxKeySize := 2048, flags := CKF_SIGN }
    key_types := [7, -1, -1, -1] }

/-- A raw-accumulation operation payload with a non-empty buffer. -/
def d10 : OperationData :=
  { key := 1, info := none, md := none, buffer := [3, 4] }

/-!
Theorems.
-/

/-- Helper: bne on Nat is false exactly on equal values. -/
theorem nat_bne_false {a b : Nat} (h : a = b) : (a != b) = false := by
  simp [h]

/-- Helper: bne on Nat is true exactly on distinct values. -/
theorem nat_bne_true {a b : Nat} (h : a ≠ b) : (a != b) = true := by
  simp [h]

/-- Claim C1, counterexample.  An encrypt-final call with a null output
buffer is a size query, which the claim says leaves the handle installed;
when the descriptor hook reports CKR_BUFFER_TOO_SMALL on that query,
sc_pkcs11_encr_final nevertheless runs session_stop_operation, so the
encrypt handle is uninstalled. -/
theorem claim1_counterexample :
    sc_pkcs11_encr_final true CKR_BUFFER_TOO_SMALL false = (CKR_BUFFER_TOO_SMALL, false) := by
  decide

/-- Claim C1, amended: the retriability rule is per family, not uniform.
Sign-final and the decrypt one-shot keep the handle exactly when the hook
reports buffer-too-small or the output buffer is null; the encrypt
one-shot, encrypt-final and decrypt-final keep it exactly when a
null-buffer query succeeds or a non-null buffer gets buffer-too-small (a
null-buffer query that errors, buffer-too-small included, uninstalls);
digest-final keeps it exactly when the hook reports buffer-too-small. -/
theorem claim1_amended (rv : CK_RV) (nn : Bool) :
    (sc_pkcs11_sign_final true true rv nn).2 = (rv == CKR_BUFFER_TOO_SMALL || !nn)
    ∧ (sc_pkcs11_decr true rv nn).2 = (rv == CKR_BUFFER_TOO_SMALL || !nn)
    ∧ (sc_pkcs11_encr true rv nn).2
        = (!nn && rv == CKR_OK || nn && rv == CKR_BUFFER_TOO_SMALL)
    ∧ (sc_pkcs11_encr_final true rv nn).2
        = (!nn && rv == CKR_OK || nn && rv == CKR_BUFFER_TOO_SMALL)
    ∧ (sc_pkcs11_decr_final true rv nn).2
        = (!nn && rv == CKR_OK || nn && rv == CKR_BUFFER_TOO_SMALL)
    ∧ (sc_pkcs11_md_final true rv nn).2 = (rv == CKR_BUFFER_TOO_SMALL) := by
  by_cases h1 : rv = CKR_BUFFER_TOO_SMALL
  · subst h1; cases nn <;> decide
  · by_cases h2 : rv = CKR_OK
    · subst h2; cases nn <;> decide
    · have e1 : (rv == CKR_BUFFER_TOO_SMALL) = false := by simp [h1]
      have e2 : (rv == CKR_OK) = false := by simp [h2]
      cases nn <;>
        simp [sc_pkcs11_sign_final, sc_pkcs11_decr, sc_pkcs11_encr,
          sc_pkcs11_encr_final, sc_pkcs11_decr_final, sc_pkcs11_md_final,
          e1, e2, h1, h2]

/-- Claim C3.  In sc_pkcs11_decr_init a failing init_params hook returns
without running session_stop_operation, leaving the decrypt handle
installed (first conjunct); moreover a succeeding init_params overwrites
the failed decrypt_init result, so the call reports CKR_OK with the handle
installed (second conjunct).  sc_pkcs11_sign_init, by contrast, uninstalls
the handle on a failing init hook (third conjunct). -/
theorem claim3_decr_init_bug :
    sc_pkcs11_decr_init [dAll] 5 0 false 0 64 CKR_OK (some CKR_ARGUMENTS_BAD)
      = (CKR_ARGUMENTS_BAD, true)
    ∧ sc_pkcs11_decr_init [dAll] 5 0 false 0 64 CKR_FUNCTION_FAILED (some CKR_OK)
      = (CKR_OK, true)
    ∧ sc_pkcs11_sign_init [dAll] 5 0 false 0 64 CKR_ARGUMENTS_BAD
      = (CKR_ARGUMENTS_BAD, false) := by
  decide

/-- Claim C5.  sc_pkcs11_wrap resolves the descriptor with CKF_UNWRAP: a
registry holding a descriptor that carries only the WRAP capability makes
the wrap entry point answer CKR_MECHANISM_INVALID, while a descriptor
carrying only the UNWRAP capability lets wrap proceed; unwrap resolves
with CKF_UNWRAP as the claim states. -/
theorem claim5_wrap_flag_bug :
    sc_pkcs11_wrap [dWrapOnly] 7 0 CKR_OK = (CKR_MECHANISM_INVALID, false)
    ∧ sc_pkcs11_wrap [dUnwrapOnly] 7 0 CKR_OK = (CKR_OK, false)
    ∧ sc_pkcs11_unwrap [dUnwrapOnly] 7 0 CKR_OK = (CKR_OK, false) := by
  decide

/-- Claim C6.  Only sc_pkcs11_sign_init rejects an oversize non-null
mechanism parameter (length 65 against capacity 64) with
CKR_ARGUMENTS_BAD before installing a handle; verify-init, encrypt-init
and decrypt-init copy the parameter with no length check and proceed to
install the handle and report CKR_OK. -/
theorem claim6_param_check_bug :
    sc_pkcs11_sign_init [dAll] 5 0 true 65 64 CKR_OK = (CKR_ARGUMENTS_BAD, false)
    ∧ sc_pkcs11_verif_init [dAll] 5 0 true 65 64 CKR_OK = (CKR_OK, true)
    ∧ sc_pkcs11_encr_init [dAll] 5 0 true 65 64 CKR_OK (some CKR_OK) = (CKR_OK, true)
    ∧ sc_pkcs11_decr_init [dAll] 5 0 true 65 64 CKR_OK (some CKR_OK) = (CKR_OK, true) := by
  decide

/-- Claim C10.  Appending an empty chunk to the accumulation buffer
answers CKR_OK and is the identity on the operation data, and the raw
path of sign-update (no nested digest operation) inherits this. -/
theorem claim10_empty_append (d : OperationData) (r : CK_RV) (hmd : d.md = none) :
    signature_data_buffer_append (some d) [] = (CKR_OK, some d)
    ∧ sc_pkcs11_signature_update d [] r = (CKR_OK, d) := by
  constructor
  · simp [signature_data_buffer_append]
  · simp [sc_pkcs11_signature_update, hmd, signature_data_buffer_append]

/-- Claim C10, witness at a concrete raw-accumulation payload. -/
theorem claim10_empty_append_witness :
    signature_data_buffer_append (some d10) [] = (CKR_OK, some d10)
    ∧ sc_pkcs11_signature_update d10 [] CKR_OK = (CKR_OK, d10) :=
  claim10_empty_append d10 CKR_OK rfl

/-- Helper: the register loop reports a capacity failure when the new key
type is absent from the slots and no slot is free. -/
theorem addKeyType_eq_none (l : List Int) (kt : Int)
    (h : ∀ k ∈ l, kt ≠ k ∧ 0 ≤ k) : addKeyType l kt = none := by
  induction l with
  | nil => rfl
  | cons k rest ih =>
    have hk := h k (by simp)
    have h1 : (k == kt) = false := by
      simp only [beq_eq_false_iff_ne]
      exact fun he => hk.1 he.symm
    have h2 : ¬(k < 0) := not_lt.mpr hk.2
    have h3 : addKeyType rest kt = none := ih (fun x hx => h x (by simp [hx]))
    simp [addKeyType, h1, h2, h3]

/-- Claim C2, counterexample.  Starting from an empty registry, register
a sign-only descriptor for id 1 and then an encrypt-only descriptor for
the same id: the lookup requires the new flags to be included in the
existing descriptor's flags, fails, and the second call appends, so the
registry holds two descriptors with id 1 even though both calls returned
CKR_OK. -/
theorem claim2_counterexample :
    (sc_pkcs11_register_mechanism (sc_pkcs11_register_mechanism [] c2First).2 c2Second).1
      = CKR_OK
    ∧ (sc_pkcs11_register_mechanism (sc_pkcs11_register_mechanism [] c2First).2 c2Second).2.map
        (fun d => d.mech) = [1, 1] := by
  decide

/-- Claim C2, amended: uniqueness is per (id, compatible flags), not per
id.  A registration whose (id, flags) is matched by the lookup (some
descriptor with that id whose flags include the new flags) merges or fails
in place and never changes the id sequence of the registry; a registration
the lookup does not match appends the new descriptor at the end — even
when a descriptor with the same id but incompatible flags is present, so
two descriptors may share an id. -/
theorem claim2_amended (mechs : List MechType) (mt : MechType) :
    (sc_pkcs11_find_mechanism mechs mt.mech mt.mech_info.flags ≠ none →
      (sc_pkcs11_register_mechanism mechs mt).2.map (fun d => d.mech)
        = mechs.map (fun d => d.mech))
    ∧ (sc_pkcs11_find_mechanism mechs mt.mech mt.mech_info.flags = none →
      (sc_pkcs11_register_mechanism mechs mt).2 = mechs ++ [mt]) := by
  induction mechs with
  | nil =>
    constructor
    · intro h; exact absurd rfl h
    · intro _; rfl
  | cons ex rest ih =>
    by_cases h : mechMatches ex mt.mech mt.mech_info.flags
    · constructor
      · intro _
        simp only [sc_pkcs11_register_mechanism]
        rw [if_pos h]
        cases hk : addKeyType ex.key_types (mt.key_types.headD (-1)) with
        | some kts => simp
        | none => simp
      · intro hnone
        simp [sc_pkcs11_find_mechanism, h] at hnone
    · constructor
      · intro hne
        have hf : sc_pkcs11_find_mechanism rest mt.mech mt.mech_info.flags ≠ none := by
          simpa [sc_pkcs11_find_mechanism, h] using hne
        simp [sc_pkcs11_register_mechanism, h, ih.1 hf]
      · intro hnone
        have hf : sc_pkcs11_find_mechanism rest mt.mech mt.mech_info.flags = none := by
          simpa [sc_pkcs11_find_mechanism, h] using hnone
        simp [sc_pkcs11_register_mechanism, h, ih.2 hf]

/-- Claim C2, witness: a registration the lookup does not match appends. -/
theorem claim2_amended_witness :
    (sc_pkcs11_register_mechanism [] c2First).2 = [] ++ [c2First] :=
  (claim2_amended [] c2First).2 (by decide)

/-- Claim C7, counterexample.  The id 2 is already present (c7Full), the
new key type 7 occupies no slot, and all MAX_KEY_TYPES slots are taken —
yet the call succeeds with CKR_OK and appends a duplicate descriptor,
because the new flag set is not included in c7Full's flags and the lookup
misses the existing descriptor. -/
theorem claim7_counterexample :
    sc_pkcs11_register_mechanism [c7Full] c7NewKeyType
      = (CKR_OK, [c7Full, c7NewKeyType]) := by
  decide

/-- Claim C7, amended: when the registration is matched by the lookup (a
descriptor ex with the same id whose flags include the new flags), the new
key type occupies none of ex's slots and no slot is free, the call fails
with the capacity error CKR_BUFFER_TOO_SMALL and the whole registry — in
particular ex's key-type slots, size range and flags — is left exactly as
it was. -/
theorem claim7_amended (mechs : List MechType) (mt ex : MechType)
    (hfind : sc_pkcs11_find_mechanism mechs mt.mech mt.mech_info.flags = some ex)
    (hfull : ∀ k ∈ ex.key_types, mt.key_types.headD (-1) ≠ k ∧ 0 ≤ k) :
    sc_pkcs11_register_mechanism mechs mt = (CKR_BUFFER_TOO_SMALL, mechs) := by
  induction mechs with
  | nil => simp [sc_pkcs11_find_mechanism] at hfind
  | cons hd rest ih =>
    by_cases h : mechMatches hd mt.mech mt.mech_info.flags
    · have hex : hd = ex := by
        simpa [sc_pkcs11_find_mechanism, h] using hfind
      subst hex
      simp only [sc_pkcs11_register_mechanism]
      rw [if_pos h, addKeyType_eq_none hd.key_types (mt.key_types.headD (-1)) hfull]
    · have hf : sc_pkcs11_find_mechanism rest mt.mech mt.mech_info.flags = some ex := by
        simpa [sc_pkcs11_find_mechanism, h] using hfind
      simp [sc_pkcs11_register_mechanism, h, ih hf]

/-- Claim C7, witness: same id, same flags, fresh key type, all four
slots occupied — capacity error and unchanged registry. -/
theorem claim7_amended_witness :
    sc_pkcs11_register_mechanism [c7Full] c7NewSameFlags
      = (CKR_BUFFER_TOO_SMALL, [c7Full]) :=
  claim7_amended [c7Full] c7NewSameFlags c7Full (by decide) (by decide)

/-- Helper: a lookup with empty required flags succeeds exactly when some
descriptor carries the requested id, since flags are never a constraint
(x &&& 0 = 0). -/
theorem find_mechanism_zero_isSome (mechs : List MechType) (mech : Nat) :
    (sc_pkcs11_find_mechanism mechs mech 0).isSome = true
      ↔ ∃ mt ∈ mechs, mt.mech = mech := by
  induction mechs with
  | nil => simp [sc_pkcs11_find_mechanism]
  | cons hd rest ih =>
    by_cases h : hd.mech = mech
    · have hm : mechMatches hd mech 0 = true := by
        simp [mechMatches, Nat.and_zero, h]
      simp [sc_pkcs11_find_mechanism, hm, h]
    · have hm : mechMatches hd mech 0 = false := by
        simp [mechMatches, Nat.and_zero, h]
      simp [sc_pkcs11_find_mechanism, hm, ih, h]

/-- Claim C9.  The mechanism-info query succeeds exactly when some
descriptor with the requested id is registered, whatever its flags (the
lookup runs with required flags 0); otherwise it answers
CKR_MECHANISM_INVALID; and on success the info copied out is the first
matching descriptor's stored info. -/
theorem claim9_get_mechanism_info (mechs : List MechType) (mech : Nat) :
    ((sc_pkcs11_get_mechanism_info mechs mech).1 = CKR_OK
      ↔ ∃ mt ∈ mechs, mt.mech = mech)
    ∧ ((sc_pkcs11_get_mechanism_info mechs mech).1 = CKR_OK
      ∨ (sc_pkcs11_get_mechanism_info mechs mech).1 = CKR_MECHANISM_INVALID)
    ∧ (sc_pkcs11_get_mechanism_info mechs mech).2
        = (sc_pkcs11_find_mechanism mechs mech 0).map (fun mt => mt.mech_info) := by
  cases hf : sc_pkcs11_find_mechanism mechs mech 0 with
  | none =>
    have hnone : ¬ ∃ mt ∈ mechs, mt.mech = mech := by
      rw [← find_mechanism_zero_isSome mechs mech, hf]
      simp
    refine ⟨?_, ?_, ?_⟩
    · simp [sc_pkcs11_get_mechanism_info, hf, hnone, CKR_OK, CKR_MECHANISM_INVALID]
    · simp [sc_pkcs11_get_mechanism_info, hf]
    · simp [sc_pkcs11_get_mechanism_info, hf]
  | some mt0 =>
    have hsome : ∃ mt ∈ mechs, mt.mech = mech :=
      (find_mechanism_zero_isSome mechs mech).mp (by rw [hf]; rfl)
    refine ⟨?_, ?_, ?_⟩
    · simp [sc_pkcs11_get_mechanism_info, hf, hsome]
    · simp [sc_pkcs11_get_mechanism_info, hf]
    · simp [sc_pkcs11_get_mechanism_info, hf]

/-- Claim C4.  Composed sign-init over a descriptor carrying composition
info: a CKR_OK answer from can_do takes the native path (no nested digest
operation, no composition info on the payload, raw accumulation); a
CKR_FUNCTION_NOT_SUPPORTED answer or an absent can_do hook instantiates a
nested digest operation over the composition's hash descriptor; any other
answer fails the init with that error, releasing the operation data.  The
final conjunct shows the native-path payload accumulates raw data through
sign-update. -/
theorem claim4_composition (key : Nat) (ip : Option CK_RV) (i : HashSigInfo)
    (mdrv e : CK_RV) (part : List Nat)
    (hip : ip = none ∨ ip = some CKR_OK)
    (he1 : e ≠ CKR_OK) (he2 : e ≠ CKR_FUNCTION_NOT_SUPPORTED) :
    sc_pkcs11_signature_init key (some CKR_OK) ip (some i) mdrv
      = (CKR_OK, some { key := key, info := none, md := none, buffer := [] })
    ∧ (mdrv = CKR_OK →
        sc_pkcs11_signature_init key (some CKR_FUNCTION_NOT_SUPPORTED) ip (some i) mdrv
          = (CKR_OK, some { key := key, info := some i, md := some i.hash_type, buffer := [] })
        ∧ sc_pkcs11_signature_init key none ip (some i) mdrv
          = (CKR_OK, some { key := key, info := some i, md := some i.hash_type, buffer := [] }))
    ∧ sc_pkcs11_signature_init key (some e) ip (some i) mdrv = (e, none)
    ∧ (sc_pkcs11_signature_update
        { key := key, info := none, md := none, buffer := [] } part mdrv).2.buffer = part := by
  have e1 : (e == CKR_OK) = false := by simp [he1]
  have e2 : (e == CKR_FUNCTION_NOT_SUPPORTED) = false := by simp [he2]
  refine ⟨?_, ?_, ?_, ?_⟩
  · rcases hip with h | h <;> subst h <;>
      simp [sc_pkcs11_signature_init, signatureInitParams, signatureInitHash,
        CKR_OK, CKR_FUNCTION_NOT_SUPPORTED]
  · intro hmd
    subst hmd
    constructor <;> (rcases hip with h | h <;> subst h <;>
      simp [sc_pkcs11_signature_init, signatureInitParams, signatureInitHash,
        CKR_OK, CKR_FUNCTION_NOT_SUPPORTED])
  · rcases hip with h | h <;> subst h <;>
      simp [sc_pkcs11_signature_init, signatureInitParams, signatureInitHash, e1, e2]
  · cases part with
    | nil => simp [sc_pkcs11_signature_update, signature_data_buffer_append]
    | cons a l => simp [sc_pkcs11_signature_update, signature_data_buffer_append]

/-- Claim C4, witness: native path at a concrete composition payload. -/
theorem claim4_composition_witness :
    sc_pkcs11_signature_init 0 (some CKR_OK) none (some infoEx) CKR_OK
      = (CKR_OK, some { key := 0, info := none, md := none, buffer := [] }) :=
  (claim4_composition 0 none infoEx CKR_OK CKR_FUNCTION_FAILED [1] (Or.inl rfl)
    (by decide) (by decide)).1

/-- Claim C8.  The signature-size query answers 256 bytes for an RSA key
with a 2048-bit modulus, 64 bytes for each of the three EC families over
a 256-bit field, twice ceil(bits/8) for GOSTR3410 at every bit size, and
CKR_MECHANISM_INVALID for every other declared key type. -/
theorem claim8_signature_size (b kt : Nat)
    (h1 : kt ≠ CKK_RSA) (h2 : kt ≠ CKK_EC) (h3 : kt ≠ CKK_EC_EDWARDS)
    (h4 : kt ≠ CKK_EC_MONTGOMERY) (h5 : kt ≠ CKK_GOSTR3410) :
    sc_pkcs11_signature_size CKR_OK CKK_RSA CKR_OK 2048 = (CKR_OK, some 256)
    ∧ sc_pkcs11_signature_size CKR_OK CKK_EC CKR_OK 256 = (CKR_OK, some 64)
    ∧ sc_pkcs11_signature_size CKR_OK CKK_EC_EDWARDS CKR_OK 256 = (CKR_OK, some 64)
    ∧ sc_pkcs11_signature_size CKR_OK CKK_EC_MONTGOMERY CKR_OK 256 = (CKR_OK, some 64)
    ∧ sc_pkcs11_signature_size CKR_OK CKK_GOSTR3410 CKR_OK b
        = (CKR_OK, some ((b + 7) / 8 * 2))
    ∧ sc_pkcs11_signature_size CKR_OK kt CKR_OK b = (CKR_MECHANISM_INVALID, none) := by
  have e1 : (kt == CKK_RSA) = false := by simp [h1]
  have e2 : (kt == CKK_EC) = false := by simp [h2]
  have e3 : (kt == CKK_EC_EDWARDS) = false := by simp [h3]
  have e4 : (kt == CKK_EC_MONTGOMERY) = false := by simp [h4]
  have e5 : (kt == CKK_GOSTR3410) = false := by simp [h5]
  refine ⟨by decide, by decide, by decide, by decide, ?_, ?_⟩
  · simp [sc_pkcs11_signature_size, CKR_OK, CKK_GOSTR3410, CKK_RSA, CKK_EC,
      CKK_EC_EDWARDS, CKK_EC_MONTGOMERY]
  · simp [sc_pkcs11_signature_size, CKR_OK, e1, e2, e3, e4, e5]

/-- Claim C8, witness: RSA with a 2048-bit modulus answers 256 bytes,
instantiated with the otherwise-unknown key type 0x1 (CKK_DSA). -/
theorem claim8_signature_size_witness :
    sc_pkcs11_signature_size CKR_OK CKK_RSA CKR_OK 2048 = (CKR_OK, some 256) :=
  (claim8_signature_size 512 0x1 (by decide) (by decide) (by decide) (by decide)
    (by decide)).1

end Mechanism
